import Mathlib

/-!
Shallow embedding of the campaign lifecycle core of the Drip-Email-Tool
repository (src/src/modules/campaign_manager.py, src/src/modules/scheduler.py,
src/src/modules/input_parser.py, src/config/config.py), together with theorems
settling the frozen claims about it.

Modelling conventions:
* Python dicts are association lists looked up with `alookup`; assignment to an
  existing key is `modifyAssoc`, insertion is `dictSet` (replace-or-append,
  which is exactly Python dict-assignment semantics, preserving key order).
* Python dict keys are heterogeneous: a campaign dict maps the string key
  "campaign_status" to a status and stage keys to stage dicts.  Stage keys are
  `PKey` (either a Python `str` or a Python `int`), because the ingestion path
  produces string keys while the manager looks stages up with integer keys.
* Raising code is embedded in `Except PyErr`; a bare `try/except` that returns
  `False` is an explicit catch of the `Except` value.
* Timestamps are integers (seconds); `datetime.fromisoformat` is passed in as
  an uninterpreted total function `fromiso : String → Int`, and `datetime.now()`
  is a parameter `now : Int` (time is frozen for the duration of one call).
* Logging (`log_event`) has no observable effect and is omitted.
-/

/-- A Python exception kind, as far as the embedded code can raise one. -/
inductive PyErr where
  /-- KeyError: subscripting a dict with an absent key. -/
  | keyError : PyErr
  /-- TypeError: e.g. unpacking `None`, or testing an unhashable dict for
  membership, or comparing `None` with a datetime. -/
  | typeError : PyErr
  /-- AttributeError: calling a method that the object does not define. -/
  | attributeError : PyErr
  /-- apscheduler ConflictingIdError: `add_job` with an id already present. -/
  | conflictingIdError : PyErr
deriving DecidableEq, Repr

/-- A Python dict key as used for stage entries: the ingestion path writes
`str(sequence_id)` keys while the campaign manager reads `int` keys. -/
inductive PKey where
  | str (s : String) : PKey
  | int (n : Nat) : PKey
deriving DecidableEq, Repr

/-- A Python scalar that is a string in some states and an int in others
(the stage "interval" field is an int normally and `""` for lapsed stages). -/
inductive PyScalar where
  | s (v : String) : PyScalar
  | i (v : Int) : PyScalar
deriving DecidableEq, Repr

/-- Association-list lookup (Python `d[k]` / `k in d`), first match wins;
Python dicts have unique keys so the first match is the only one. -/
def alookup {κ α : Type} [DecidableEq κ] : List (κ × α) → κ → Option α
  | [], _ => none
  | (k1, v) :: rest, k => if k1 = k then some v else alookup rest k

/-- Python dict assignment to a key known to exist: rewrite the value in
place, leaving every other entry untouched (dict keys are unique, so
rewriting every match is the same as rewriting the one match). -/
def modifyAssoc {κ α : Type} [DecidableEq κ] : List (κ × α) → κ → (α → α) → List (κ × α)
  | [], _, _ => []
  | (k1, v) :: rest, k, f =>
    if k1 = k then (k1, f v) :: modifyAssoc rest k f
    else (k1, v) :: modifyAssoc rest k f

/-- Python dict assignment `d[k] = v`: replace the value if the key exists
(keeping its position), otherwise append the new entry. -/
def dictSet {κ α : Type} [DecidableEq κ] : List (κ × α) → κ → α → List (κ × α)
  | [], k, v => [(k, v)]
  | (k1, v1) :: rest, k, v =>
    if k1 = k then (k, v) :: rest else (k1, v1) :: dictSet rest k v

/-- Python `del d[k]`. -/
def dictDel {κ α : Type} [DecidableEq κ] (d : List (κ × α)) (k : κ) : List (κ × α) :=
  d.filter (fun p => p.1 ≠ k)

/-- One stage template as built by `InputParser.build_campaign_data`
(src/src/modules/input_parser.py lines 190-198): subject, content and the
placeholders extracted from each by the `extract_placeholders` regex, which is
passed around as an uninterpreted function. -/
structure TemplateRec where
  subject : String
  content : String
  placeholders_subject : List String
  placeholders_content : List String
deriving DecidableEq, Repr

/-- One contact entry: opaque info fields plus a "progress" status
(src/src/modules/input_parser.py lines 219-227). -/
structure ContactRec where
  info : List (String × String)
  progress : String
deriving DecidableEq, Repr

/-- One stage dict (src/src/modules/input_parser.py lines 234-249): status,
start time (ISO string, or "" for a lapsed stage), interval (int, or "" for a
lapsed stage), optional template (None for a lapsed stage), contacts. -/
structure StageRec where
  sequence_status : String
  start_time : String
  interval : PyScalar
  template : Option TemplateRec
  contacts : List (String × ContactRec)
deriving DecidableEq, Repr

/-- One campaign dict: the "campaign_status" entry plus the stage entries.
In Python this is a single dict, so `len(campaign)` is `1 + stages.length`. -/
structure CampaignRec where
  campaign_status : String
  stages : List (PKey × StageRec)
deriving DecidableEq, Repr

/-- A campaign group: campaign id → campaign (one value of
`campaigns_workflow`). -/
abbrev CGroup := List (String × CampaignRec)

/-- The root mapping `campaigns_workflow`: group key → group. -/
abbrev Workflow := List (String × CGroup)

/-- The observable state of a `CampaignManager`: the in-memory workflow and
the content of the JSON store file (`none` when the file does not exist). -/
structure MState where
  campaigns_workflow : Workflow
  stored : Option Workflow
deriving DecidableEq, Repr

/-- `CampaignManager.CONTACT_ALLOWED_STATUSES` (campaign_manager.py line 10).
Note "Skip" is not in the set. -/
def CONTACT_ALLOWED_STATUSES : List String :=
  ["Not Started", "Pending", "Email Sent", "Reply Received", "Closed"]

/-- `CampaignManager.CAMPAIGN_ALLOWED_STATUSES` (campaign_manager.py line 11). -/
def CAMPAIGN_ALLOWED_STATUSES : List String :=
  ["Not Started", "In Progress", "Completed"]

/-- `config.FILE_PERSISTENCE` (src/config/config.py line 14).  Defined in the
configuration but never read by any module under src/. -/
def FILE_PERSISTENCE : Bool := false

/-- `CampaignManager.save_state` (campaign_manager.py lines 340-343): rewrite
the store file with the whole workflow.  The source calls
`Utils.save_json_file` unconditionally; no configuration flag is consulted. -/
def save_state (st : MState) : MState :=
  { st with stored := some st.campaigns_workflow }

/-- `CampaignManager.get_campaigns` (lines 46-53): the group dict, or `{}`
(here `[]`) when the group key is unknown. -/
def get_campaigns (st : MState) (campaigns_name : String) : CGroup :=
  match alookup st.campaigns_workflow campaigns_name with
  | none => []
  | some grp => grp

/-- `CampaignManager.get_campaign` (lines 66-76) at its ordinary call sites,
where `campaign_id` is a string: the campaign dict, or `{}` (here `none`). -/
def get_campaign (st : MState) (campaigns_name campaign_id : String) :
    Option CampaignRec :=
  match alookup st.campaigns_workflow campaigns_name with
  | none => none
  | some grp => alookup grp campaign_id

/-- `CampaignManager.get_campaign` (lines 66-76) at the call site in
`completed_all_campaigns` (line 333), where the `campaign_id` argument is a
whole campaign dict (the loop at line 332 binds dict values, not keys): the
membership test `campaign_id not in self.campaigns_workflow[campaigns_name]`
at line 71 hashes the dict and raises `TypeError: unhashable type`. -/
def get_campaign_dictkey (st : MState) (campaigns_name : String)
    (campaign_id : CampaignRec) : Except PyErr (Option CampaignRec) :=
  match alookup st.campaigns_workflow campaigns_name with
  | none => .ok none
  | some _ => .error .typeError

/-- `CampaignManager.add_campaigns` (lines 35-44): refuse a duplicate group
key, otherwise insert and save.  No structural validation of the document. -/
def add_campaigns (st : MState) (campaigns_data : CGroup) (campaigns_name : String) :
    Bool × MState :=
  if (alookup st.campaigns_workflow campaigns_name).isSome then
    (false, st)
  else
    (true, save_state
      { st with campaigns_workflow := dictSet st.campaigns_workflow campaigns_name campaigns_data })

/-- `CampaignManager.del_campaigns` (lines 55-64). -/
def del_campaigns (st : MState) (campaigns_name : String) : Bool × MState :=
  if (alookup st.campaigns_workflow campaigns_name).isSome then
    (true, save_state
      { st with campaigns_workflow := dictDel st.campaigns_workflow campaigns_name })
  else
    (false, st)

/-- Rewrite one campaign in place (the nested dict assignment
`self.campaigns_workflow[name][id] ...`). -/
def updCampaign (st : MState) (campaigns_name campaign_id : String)
    (f : CampaignRec → CampaignRec) : MState :=
  { st with campaigns_workflow :=
      (modifyAssoc st.campaigns_workflow campaigns_name
        (fun grp => modifyAssoc grp campaign_id f)) }

/-- Rewrite one stage in place (the nested dict assignment
`self.campaigns_workflow[name][id][stage] ...` with an int stage key). -/
def updStage (st : MState) (campaigns_name campaign_id : String) (stage : Nat)
    (f : StageRec → StageRec) : MState :=
  updCampaign st campaigns_name campaign_id
    (fun camp => { camp with stages := modifyAssoc camp.stages (PKey.int stage) f })

/-- `CampaignManager.update_campaign_status` (lines 78-95). -/
def update_campaign_status (st : MState) (campaigns_name campaign_id status : String) :
    Bool × MState :=
  match alookup st.campaigns_workflow campaigns_name with
  | none => (false, st)
  | some grp =>
    match alookup grp campaign_id with
    | none => (false, st)
    | some _ =>
      if CAMPAIGN_ALLOWED_STATUSES.contains status then
        (true, save_state (updCampaign st campaigns_name campaign_id
          (fun camp => { camp with campaign_status := status })))
      else
        (false, st)

/-- `CampaignManager.get_stage` (lines 97-110): the `stage` parameter is an
int at every call site, so the membership test `stage not in campaign` looks
for the key `PKey.int stage`; the string key "campaign_status" can never
equal an int key. -/
def get_stage (st : MState) (campaigns_name campaign_id : String) (stage : Nat) :
    Option StageRec :=
  match alookup st.campaigns_workflow campaigns_name with
  | none => none
  | some grp =>
    match alookup grp campaign_id with
    | none => none
    | some camp => alookup camp.stages (PKey.int stage)

/-- `CampaignManager.update_stage_status` (lines 112-132): no check of the
stage's current status — any status in the allowed set is written. -/
def update_stage_status (st : MState) (campaigns_name campaign_id : String)
    (stage : Nat) (status : String) : Bool × MState :=
  match alookup st.campaigns_workflow campaigns_name with
  | none => (false, st)
  | some grp =>
    match alookup grp campaign_id with
    | none => (false, st)
    | some camp =>
      if (alookup camp.stages (PKey.int stage)).isSome then
        if CAMPAIGN_ALLOWED_STATUSES.contains status then
          (true, save_state (updStage st campaigns_name campaign_id stage
            (fun sq => { sq with sequence_status := status })))
        else
          (false, st)
      else
        (false, st)

/-- `CampaignManager.update_contact_status` (lines 147-167): the write goes
through the alias returned by `get_stage`, i.e. into the stage found under
the int key. -/
def update_contact_status (st : MState) (campaigns_name campaign_id : String)
    (stage : Nat) (contact_email status : String) : Bool × MState :=
  match get_stage st campaigns_name campaign_id stage with
  | none => (false, st)
  | some seq =>
    if (alookup seq.contacts contact_email).isSome then
      if CONTACT_ALLOWED_STATUSES.contains status then
        (true, save_state (updStage st campaigns_name campaign_id stage
          (fun sq => { sq with contacts :=
            (modifyAssoc sq.contacts contact_email
              (fun ct => { ct with progress := status })) })))
      else
        (false, st)
    else
      (false, st)

/-- The loop of `get_current_stage` (lines 181-183):
`for sequence_id in range(total_stage, 0, -1)` — scan stage numbers downward
from `total_stage`; subscripting `campaign[sequence_id]` with an absent int
key raises KeyError; return the first stage whose status is not
"Not Started"; falling out of the loop returns Python `None`. -/
def current_stage_loop (camp : CampaignRec) (total : Nat) :
    Nat → Except PyErr (Option (Nat × Nat))
  | 0 => .ok none
  | m + 1 =>
    match alookup camp.stages (PKey.int (m + 1)) with
    | none => .error .keyError
    | some sq =>
      if sq.sequence_status ≠ "Not Started" then
        .ok (some (m + 1, total))
      else
        current_stage_loop camp total m

/-- `CampaignManager.get_current_stage` (lines 169-183).
`total_stage = len(campaign) - 1`: the campaign dict holds the
"campaign_status" key plus one key per stage, so this is the stage count.
Returns `(0, 0)` for a missing campaign, `(1, total)` for a Not Started
campaign, otherwise scans downward; `.ok none` models the implicit
`return None` when every scanned stage is "Not Started". -/
def get_current_stage (st : MState) (campaigns_name campaign_id : String) :
    Except PyErr (Option (Nat × Nat)) :=
  match get_campaign st campaigns_name campaign_id with
  | none => .ok (some (0, 0))
  | some camp =>
    let total := camp.stages.length
    if camp.campaign_status = "Not Started" then
      .ok (some (1, total))
    else
      current_stage_loop camp total total

/-- The contact loop of `start_campaign` (lines 254-257): set every contact of
the stage to "Pending" via `update_contact_status`, ignoring each call's
boolean result.  The email list is the key list of the stage as looked up
before the loop. -/
def pend_contacts (campaigns_name campaign_id : String) (stage : Nat)
    (emails : List String) (st : MState) : MState :=
  emails.foldl
    (fun s e => (update_contact_status s campaigns_name campaign_id stage e "Pending").2)
    st

/-- `CampaignManager.start_campaign` (lines 237-262).  When the campaign
status is not "Not Started" the source only logs a warning (lines 244-245)
and falls through.  Unpacking the `None` that `get_current_stage` can return
(line 247) raises TypeError. -/
def start_campaign (st : MState) (campaigns_name campaign_id : String) :
    Except PyErr (Bool × MState) :=
  match get_campaign st campaigns_name campaign_id with
  | none => .ok (false, st)
  | some _ =>
    match get_current_stage st campaigns_name campaign_id with
    | .error e => .error e
    | .ok none => .error .typeError
    | .ok (some (current_stage, _total_stage)) =>
      match get_stage st campaigns_name campaign_id current_stage with
      | none => .ok (false, st)
      | some seq =>
        let st1 := pend_contacts campaigns_name campaign_id current_stage
          (seq.contacts.map Prod.fst) st
        let st2 := (update_stage_status st1 campaigns_name campaign_id
          current_stage "In Progress").2
        let st3 := (update_campaign_status st2 campaigns_name campaign_id
          "In Progress").2
        .ok (true, st3)

/-- The terminal-progress test of `completed_stage` (lines 294-298): the
source set is `{"Email Sent", "Reply Received", "Closed"}` — it does not
contain "Skip". -/
def terminal_progress (p : String) : Bool :=
  p = "Email Sent" ∨ p = "Reply Received" ∨ p = "Closed"

/-- `CampaignManager.completed_stage` (lines 286-302): false for a missing
stage; false as soon as one contact's progress is outside the terminal set;
otherwise mark the stage Completed (which saves state) and return true. -/
def completed_stage (st : MState) (campaigns_name campaign_id : String)
    (stage : Nat) : Bool × MState :=
  match get_stage st campaigns_name campaign_id stage with
  | none => (false, st)
  | some seq =>
    if seq.contacts.all (fun p => terminal_progress p.2.progress) then
      (true, (update_stage_status st campaigns_name campaign_id stage "Completed").2)
    else
      (false, st)

/-- The loop of `completed_all_campaigns` (lines 332-335):
`for _, campaign_id in campaigns.items()` binds `campaign_id` to the dict
VALUES (whole campaign dicts); each iteration calls `get_campaign` with that
dict, whose membership test raises TypeError. -/
def completed_all_loop (st : MState) (campaigns_name : String) :
    List (String × CampaignRec) → Except PyErr Bool
  | [] => .ok true
  | (_, campRec) :: rest =>
    match get_campaign_dictkey st campaigns_name campRec with
    | .error e => .error e
    | .ok none => .error .keyError
    | .ok (some camp) =>
      if camp.campaign_status ≠ "Completed" then
        .ok false
      else
        completed_all_loop st campaigns_name rest

/-- `CampaignManager.completed_all_campaigns` (lines 325-338). -/
def completed_all_campaigns (st : MState) (campaigns_name : String) :
    Except PyErr Bool :=
  let campaigns := get_campaigns st campaigns_name
  if campaigns.isEmpty then
    .ok false
  else
    completed_all_loop st campaigns_name campaigns

/-- src/src/main.py lines 241-242: the group-eviction step of the control
loop — evict the group only if `completed_all_campaigns` returns true; an
exception raised there propagates (to the outer handler that terminates the
loop), so `del_campaigns` is not reached. -/
def main_group_cleanup (st : MState) (campaigns_name : String) :
    Except PyErr MState :=
  match completed_all_campaigns st campaigns_name with
  | .error e => .error e
  | .ok true => .ok (del_campaigns st campaigns_name).2
  | .ok false => .ok st

/-- `CampaignManager.get_stage_start_time` (lines 201-208): `None` for a
missing stage, otherwise `datetime.fromisoformat(sequence["start_time"])`
(the ISO parser is the uninterpreted parameter `fromiso`; the theorems only
exercise parseable start times). -/
def get_stage_start_time (fromiso : String → Int) (st : MState)
    (campaigns_name campaign_id : String) (stage : Nat) : Option Int :=
  (get_stage st campaigns_name campaign_id stage).map (fun sq => fromiso sq.start_time)

/-- `CampaignManager.get_campaign_start_time` (lines 194-199): the start time
of stage 1. -/
def get_campaign_start_time (fromiso : String → Int) (st : MState)
    (campaigns_name campaign_id : String) : Option Int :=
  get_stage_start_time fromiso st campaigns_name campaign_id 1

/-- `Scheduler.schedule_time_exceeded` (scheduler.py lines 141-146):
`input_time <= datetime.now()`. -/
def schedule_time_exceeded (input_time now : Int) : Bool :=
  input_time ≤ now

/-- A live apscheduler job as registered by `Scheduler.schedule_campaign`
(scheduler.py lines 36-48): the IntervalTrigger data read back from the
stored stage dict.  The action, its contact/template arguments and the
correlation list are opaque to the claims and omitted. -/
structure Job where
  interval : PyScalar
  start_date : Int
deriving DecidableEq, Repr

/-- The observable state of a `Scheduler`: its `CampaignManager` and the job
table keyed by the `f"{name}_{id}_{stage}"` id string. -/
structure SState where
  mgr : MState
  jobs : List (String × Job)
deriving DecidableEq, Repr

/-- The job id `f"{campaigns_name}_{campaign_id}_{current_stage}"`. -/
def jobId (campaigns_name campaign_id : String) (stage : Nat) : String :=
  campaigns_name ++ "_" ++ campaign_id ++ "_" ++ toString stage

/-- `scheduler.add_job` (apscheduler): registering a job under an id that is
already present raises ConflictingIdError; otherwise the job is added. -/
def add_job (jobs : List (String × Job)) (id : String) (job : Job) :
    Except PyErr (List (String × Job)) :=
  if (alookup jobs id).isSome then
    .error .conflictingIdError
  else
    .ok (dictSet jobs id job)

/-- The body of `Scheduler.schedule_campaign` (scheduler.py lines 16-51),
before the blanket `except` is applied.  An error value carries the state at
the moment the exception is raised, since earlier mutations are not rolled
back.  Key points, in source order:
* line 19: `start_campaign` — its only raise point (unpacking the `None`
  from `get_current_stage`) precedes all of its mutations;
* line 22: `current_stage, total_stage = get_current_stage(...)` — unpacking
  `None` raises TypeError;
* line 25: `start_time = get_campaign_start_time(...)` may be `None`, and
  line 26 then compares `None <= datetime.now()`, raising TypeError;
* lines 26-31: when the start time has passed, the source computes
  `datetime.now() + timedelta(seconds=5)` and then calls
  `self.campaign_manager.update_stage_start_time(...)` — but `CampaignManager`
  defines no method of that name (campaign_manager.py has no such attribute),
  so the call raises AttributeError;
* lines 36-48: `add_job` reads `sequence["interval"]` and
  `sequence["start_time"]`, raising KeyError when `sequence` is `{}`. -/
def schedule_campaign_body (fromiso : String → Int) (now : Int) (ss : SState)
    (campaigns_name campaign_id : String) : Except (PyErr × SState) (Bool × SState) :=
  match get_campaign ss.mgr campaigns_name campaign_id with
  | none => .ok (false, ss)
  | some _ =>
    match start_campaign ss.mgr campaigns_name campaign_id with
    | .error e => .error (e, ss)
    | .ok (false, m1) => .ok (false, { ss with mgr := m1 })
    | .ok (true, m1) =>
      let ss1 : SState := { ss with mgr := m1 }
      match get_current_stage m1 campaigns_name campaign_id with
      | .error e => .error (e, ss1)
      | .ok none => .error (.typeError, ss1)
      | .ok (some (current_stage, _total_stage)) =>
        match get_campaign_start_time fromiso m1 campaigns_name campaign_id with
        | none => .error (.typeError, ss1)
        | some start_time =>
          if schedule_time_exceeded start_time now then
            .error (.attributeError, ss1)
          else
            match get_stage m1 campaigns_name campaign_id current_stage with
            | none => .error (.keyError, ss1)
            | some seq =>
              match add_job ss1.jobs (jobId campaigns_name campaign_id current_stage)
                  { interval := seq.interval, start_date := fromiso seq.start_time } with
              | .error e => .error (e, ss1)
              | .ok jobs1 =>
                let m2 := (update_stage_status m1 campaigns_name campaign_id
                  current_stage "In Progress").2
                .ok (true, { mgr := m2, jobs := jobs1 })

/-- `Scheduler.schedule_campaign` (scheduler.py lines 14-54): the body under
the blanket `try/except` that logs and returns `False`. -/
def schedule_campaign (fromiso : String → Int) (now : Int) (ss : SState)
    (campaigns_name campaign_id : String) : Bool × SState :=
  match schedule_campaign_body fromiso now ss campaigns_name campaign_id with
  | .ok r => r
  | .error (_, s) => (false, s)

/-- One sequence entry of a campaign in schedule.json after
`Validator.filter_expired_campaign` (a lapsed stage has start_time
"expired"). -/
structure SeqEntry where
  sequence : Nat
  start_time : String
  interval : Int
deriving DecidableEq, Repr

/-- One template entry of templates.yaml after `InputParser.load_templates`. -/
structure TemplateEntry where
  sequence : Nat
  subject : String
  content : String
deriving DecidableEq, Repr

/-- One campaign of schedule.json after `InputParser.load_schedule`. -/
structure SchedCampaign where
  campaign_id : String
  sequences : List SeqEntry
deriving DecidableEq, Repr

/-- One contact row of a contacts.csv as returned by
`InputParser.load_contacts`: the required "email" column plus opaque info
columns (file reading, column checks and email-format filtering happen inside
`load_contacts` and are not modelled; the rows arrive already loaded). -/
structure ContactRow where
  email : String
  info : List (String × String)
deriving DecidableEq, Repr

/-- The template-mapping loop of `build_campaign_data`
(input_parser.py lines 187-198): sequence number → template record, with
placeholders extracted by the uninterpreted `extract` function. -/
def build_template_mapping (extract : String → List String)
    (templates : List TemplateEntry) : List (Nat × TemplateRec) :=
  templates.foldl
    (fun m t => dictSet m t.sequence
      { subject := t.subject, content := t.content,
        placeholders_subject := extract t.subject,
        placeholders_content := extract t.content })
    []

/-- The contacts dict comprehension of `build_campaign_data`
(input_parser.py lines 219-227): email → info plus progress "Not Started". -/
def richer_from_rows (rows : List ContactRow) : List (String × ContactRec) :=
  rows.foldl
    (fun m r => dictSet m r.email { info := r.info, progress := "Not Started" })
    []

/-- The carry-over comprehension of `build_campaign_data`
(input_parser.py lines 210-216): previous stage's contacts with progress
reset to "Not Started". -/
def richer_from_prev (prev : List (String × ContactRec)) : List (String × ContactRec) :=
  prev.foldl
    (fun m p => dictSet m p.1 { p.2 with progress := "Not Started" })
    []

/-- The per-campaign sequence loop of `build_campaign_data`
(input_parser.py lines 200-253), threading the campaign status and the stage
dict built so far.  `contactsFor sid = none` models a missing contacts.csv:
for `sid = 1` the source `break`s (keeping what was built), otherwise it
reads `campaigns_data[cid][str(sid - 1)]["contacts"]`, raising KeyError when
that stage was never inserted.  Both insertions (lines 234 and 243) key the
stage dict with `str(sequence_id)`.  The lapsed branch (lines 241-251) sets
the campaign status to "In Progress", inserts the stage as Completed with
empty start time/interval and template None, then flips every contact of the
inserted stage to "Skip" (the loop at lines 250-251 mutates the same dicts
the stage aliases). -/
def build_sequences (contactsFor : Nat → Option (List ContactRow))
    (tmap : List (Nat × TemplateRec)) :
    List SeqEntry → String → List (PKey × StageRec) →
    Except PyErr (String × List (PKey × StageRec))
  | [], status, stages => .ok (status, stages)
  | seq :: rest, status, stages =>
    let sid := seq.sequence
    let richerE : Except PyErr (Option (List (String × ContactRec))) :=
      match contactsFor sid with
      | none =>
        if sid = 1 then .ok none
        else
          match alookup stages (PKey.str (toString (sid - 1))) with
          | none => .error .keyError
          | some prev => .ok (some (richer_from_prev prev.contacts))
      | some rows => .ok (some (richer_from_rows rows))
    match richerE with
    | .error e => .error e
    | .ok none => .ok (status, stages)
    | .ok (some richer) =>
      match alookup tmap sid with
      | none => build_sequences contactsFor tmap rest status stages
      | some tpl =>
        if seq.start_time ≠ "expired" then
          build_sequences contactsFor tmap rest status
            (dictSet stages (PKey.str (toString sid))
              { sequence_status := "Not Started", start_time := seq.start_time,
                interval := .i seq.interval, template := some tpl,
                contacts := richer })
        else
          build_sequences contactsFor tmap rest "In Progress"
            (dictSet stages (PKey.str (toString sid))
              { sequence_status := "Completed", start_time := "",
                interval := .s "", template := none,
                contacts := richer.map (fun p => (p.1, { p.2 with progress := "Skip" })) })

/-- The campaign loop of `build_campaign_data` (input_parser.py lines
176-254), on a schedule that has already passed `validate_stage_time_order`
and `filter_expired_campaign`: every ingested campaign-group document is the
`.ok` result of this function for some inputs.  `templatesFor` and
`contactsFor` stand for the per-campaign files on disk. -/
def build_campaigns (extract : String → List String)
    (contactsFor : String → Nat → Option (List ContactRow))
    (templatesFor : String → List TemplateEntry) :
    List SchedCampaign → CGroup → Except PyErr CGroup
  | [], acc => .ok acc
  | sc :: rest, acc =>
    let tmap := build_template_mapping extract (templatesFor sc.campaign_id)
    match build_sequences (contactsFor sc.campaign_id) tmap sc.sequences
        "Not Started" [] with
    | .error e => .error e
    | .ok (status, stages) =>
      build_campaigns extract contactsFor templatesFor rest
        (dictSet acc sc.campaign_id { campaign_status := status, stages := stages })

/-- Modelled from the spec (refinement reference, not from the source):
"scan stage numbers from 1 upward; the current stage is the first one whose
status is not Completed; if none found (all Completed), the current stage is
the last stage number."  A stage number with no entry counts as
not-Completed, which never arises at the inputs compared. -/
def current_stage_spec (camp : CampaignRec) : Nat :=
  let total := camp.stages.length
  ((((List.range total).map (fun i => i + 1)).find? (fun i =>
      match alookup camp.stages (PKey.int i) with
      | some sq => !(sq.sequence_status = "Completed" : Bool)
      | none => true)).getD total)

/-- Modelled from the spec (refinement reference, not from the source): the
terminal progress set the spec claims for the stage-completion check —
"{Email Sent, Reply Received, Closed, Skip}". -/
def SPEC_TERMINAL_PROGRESS : List String :=
  ["Email Sent", "Reply Received", "Closed", "Skip"]

theorem alookup_modifyAssoc_self {κ α : Type} [DecidableEq κ]
    (d : List (κ × α)) (k : κ) (f : α → α) :
    alookup (modifyAssoc d k f) k = (alookup d k).map f := by
  induction d with
  | nil => rfl
  | cons p rest ih =>
    obtain ⟨k1, v⟩ := p
    by_cases h : k1 = k
    · subst h
      simp [modifyAssoc, alookup]
    · simp [modifyAssoc, alookup, h, ih]

theorem alookup_modifyAssoc_ne {κ α : Type} [DecidableEq κ]
    (d : List (κ × α)) (k k' : κ) (f : α → α) (hne : k' ≠ k) :
    alookup (modifyAssoc d k f) k' = alookup d k' := by
  induction d with
  | nil => rfl
  | cons p rest ih =>
    obtain ⟨k1, v⟩ := p
    by_cases h : k1 = k
    · subst h
      simp [modifyAssoc, alookup, Ne.symm hne, ih]
    · by_cases h2 : k1 = k'
      · simp [modifyAssoc, alookup, h, h2, hne]
      · simp [modifyAssoc, alookup, h, h2, ih]

theorem alookup_dictSet_self {κ α : Type} [DecidableEq κ]
    (d : List (κ × α)) (k : κ) (v : α) :
    alookup (dictSet d k v) k = some v := by
  induction d with
  | nil => simp [dictSet, alookup]
  | cons p rest ih =>
    obtain ⟨k1, v1⟩ := p
    by_cases h : k1 = k
    · simp [dictSet, alookup, h]
    · simp [dictSet, alookup, h, ih]

theorem alookup_dictSet_ne {κ α : Type} [DecidableEq κ]
    (d : List (κ × α)) (k k' : κ) (v : α) (hne : k' ≠ k) :
    alookup (dictSet d k v) k' = alookup d k' := by
  induction d with
  | nil => simp [dictSet, alookup, Ne.symm hne]
  | cons p rest ih =>
    obtain ⟨k1, v1⟩ := p
    by_cases h : k1 = k
    · subst h
      simp [dictSet, alookup, Ne.symm hne]
    · by_cases h2 : k1 = k'
      · simp [dictSet, alookup, h, h2, hne]
      · simp [dictSet, alookup, h, h2, ih]

theorem alookup_isSome_of_mem_keys {κ α : Type} [DecidableEq κ]
    (d : List (κ × α)) (k : κ) (h : k ∈ d.map Prod.fst) :
    (alookup d k).isSome := by
  induction d with
  | nil => simp at h
  | cons p rest ih =>
    rcases List.mem_cons.mp h with h1 | h1
    · simp [alookup, h1.symm]
    · by_cases h2 : p.1 = k
      · simp [alookup, h2]
      · simpa [alookup, h2] using ih h1

theorem alookup_int_of_all_str {α : Type} (d : List (PKey × α))
    (hstr : ∀ p ∈ d, ∃ s, p.1 = PKey.str s) (n : Nat) :
    alookup d (PKey.int n) = none := by
  induction d with
  | nil => rfl
  | cons p rest ih =>
    obtain ⟨s, hs⟩ := hstr p (List.mem_cons_self p rest)
    have : p.1 ≠ PKey.int n := by simp [hs]
    simpa [alookup, this] using ih (fun q hq => hstr q (List.mem_cons_of_mem p hq))

theorem mem_keys_dictSet {κ α : Type} [DecidableEq κ]
    (d : List (κ × α)) (k : κ) (v : α) (Q : κ → Prop)
    (hd : ∀ p ∈ d, Q p.1) (hk : Q k) :
    ∀ p ∈ dictSet d k v, Q p.1 := by
  induction d with
  | nil =>
    intro p hp
    simp only [dictSet, List.mem_singleton] at hp
    simpa [hp] using hk
  | cons q rest ih =>
    intro p hp
    by_cases h : q.1 = k
    · simp only [dictSet, h, if_pos rfl] at hp
      rcases List.mem_cons.mp hp with h1 | h1
      · simpa [h1] using hk
      · exact hd p (List.mem_cons_of_mem q h1)
    · simp only [dictSet, if_neg h] at hp
      rcases List.mem_cons.mp hp with h1 | h1
      · exact hd p (by simp [h1])
      · exact ih (fun r hr => hd r (List.mem_cons_of_mem q hr)) p h1

theorem get_campaign_save (st : MState) (g c : String) :
    get_campaign (save_state st) g c = get_campaign st g c := rfl

theorem get_stage_save (st : MState) (g c : String) (n : Nat) :
    get_stage (save_state st) g c n = get_stage st g c n := rfl

theorem get_campaign_eq_bind (st : MState) (g c : String) :
    get_campaign st g c =
      (alookup st.campaigns_workflow g).bind (fun grp => alookup grp c) := by
  cases h1 : alookup st.campaigns_workflow g <;> simp [get_campaign, h1]

theorem get_stage_eq_bind (st : MState) (g c : String) (n : Nat) :
    get_stage st g c n =
      (get_campaign st g c).bind (fun camp => alookup camp.stages (PKey.int n)) := by
  cases h1 : alookup st.campaigns_workflow g with
  | none => simp [get_stage, get_campaign, h1]
  | some grp =>
    cases h2 : alookup grp c <;> simp [get_stage, get_campaign, h1, h2]

theorem get_campaign_updCampaign (st : MState) (g c : String)
    (f : CampaignRec → CampaignRec) :
    get_campaign (updCampaign st g c f) g c = (get_campaign st g c).map f := by
  cases h1 : alookup st.campaigns_workflow g with
  | none => simp [get_campaign, updCampaign, alookup_modifyAssoc_self, h1]
  | some grp =>
    cases h2 : alookup grp c <;>
      simp [get_campaign, updCampaign, alookup_modifyAssoc_self, h1, h2]

theorem get_stage_updCampaign (st : MState) (g c : String) (n : Nat)
    (f : CampaignRec → CampaignRec) :
    get_stage (updCampaign st g c f) g c n =
      ((get_campaign st g c).map f).bind
        (fun camp => alookup camp.stages (PKey.int n)) := by
  cases h1 : alookup st.campaigns_workflow g with
  | none => simp [get_stage, get_campaign, updCampaign, alookup_modifyAssoc_self, h1]
  | some grp =>
    cases h2 : alookup grp c <;>
      simp [get_stage, get_campaign, updCampaign, alookup_modifyAssoc_self, h1, h2]

theorem get_stage_updStage (st : MState) (g c : String) (n : Nat)
    (f : StageRec → StageRec) :
    get_stage (updStage st g c n f) g c n = (get_stage st g c n).map f := by
  unfold updStage
  rw [get_stage_updCampaign, get_stage_eq_bind]
  cases h1 : get_campaign st g c with
  | none => rfl
  | some camp =>
    simp [alookup_modifyAssoc_self]

theorem get_stage_upd_status (st : MState) (g c : String) (n : Nat) (s : String) :
    get_stage (updCampaign st g c (fun camp => { camp with campaign_status := s }))
      g c n = get_stage st g c n := by
  rw [get_stage_updCampaign, get_stage_eq_bind]
  cases h1 : get_campaign st g c with
  | none => rfl
  | some camp => simp

theorem get_stage_some_elim {st : MState} {g c : String} {n : Nat} {seq : StageRec}
    (h : get_stage st g c n = some seq) :
    ∃ grp camp, alookup st.campaigns_workflow g = some grp ∧
      alookup grp c = some camp ∧
      alookup camp.stages (PKey.int n) = some seq := by
  rw [get_stage_eq_bind, get_campaign_eq_bind] at h
  cases h1 : alookup st.campaigns_workflow g with
  | none => rw [h1] at h; simp at h
  | some grp =>
    rw [h1] at h
    simp only [Option.some_bind] at h
    cases h2 : alookup grp c with
    | none => rw [h2] at h; simp at h
    | some camp =>
      rw [h2] at h
      simp only [Option.some_bind] at h
      exact ⟨grp, camp, rfl, h2, h⟩

theorem alookup_modifyAssoc_isSome {κ α : Type} [DecidableEq κ]
    (d : List (κ × α)) (k k' : κ) (f : α → α) :
    (alookup (modifyAssoc d k f) k').isSome = (alookup d k').isSome := by
  by_cases h : k' = k
  · subst h
    rw [alookup_modifyAssoc_self]
    cases alookup d k' <;> rfl
  · rw [alookup_modifyAssoc_ne _ _ _ _ h]

theorem update_stage_status_ok {st : MState} {g c : String} {n : Nat} {s : String}
    {grp : CGroup} {camp : CampaignRec}
    (h1 : alookup st.campaigns_workflow g = some grp)
    (h2 : alookup grp c = some camp)
    (h3 : (alookup camp.stages (PKey.int n)).isSome = true)
    (h4 : CAMPAIGN_ALLOWED_STATUSES.contains s = true) :
    update_stage_status st g c n s =
      (true, save_state (updStage st g c n
        (fun sq => { sq with sequence_status := s }))) := by
  have h4m : s ∈ CAMPAIGN_ALLOWED_STATUSES := by simpa using h4
  simp [update_stage_status, h1, h2, h3, h4m]

theorem update_campaign_status_ok {st : MState} {g c : String} {s : String}
    {grp : CGroup} {camp : CampaignRec}
    (h1 : alookup st.campaigns_workflow g = some grp)
    (h2 : alookup grp c = some camp)
    (h4 : CAMPAIGN_ALLOWED_STATUSES.contains s = true) :
    update_campaign_status st g c s =
      (true, save_state (updCampaign st g c
        (fun camp => { camp with campaign_status := s }))) := by
  have h4m : s ∈ CAMPAIGN_ALLOWED_STATUSES := by simpa using h4
  simp [update_campaign_status, h1, h2, h4m]

theorem update_contact_status_ok {st : MState} {g c : String} {n : Nat}
    {e s : String} {seq : StageRec}
    (h : get_stage st g c n = some seq)
    (he : (alookup seq.contacts e).isSome = true)
    (hs : CONTACT_ALLOWED_STATUSES.contains s = true) :
    update_contact_status st g c n e s =
      (true, save_state (updStage st g c n
        (fun sq => { sq with contacts :=
          (modifyAssoc sq.contacts e (fun ct => { ct with progress := s })) }))) := by
  have hsm : s ∈ CONTACT_ALLOWED_STATUSES := by simpa using hs
  simp [update_contact_status, h, he, hsm]

theorem pend_contacts_spec (g c : String) (n : Nat) :
    ∀ (es : List String) (st : MState) (seq : StageRec),
      get_stage st g c n = some seq →
      (∀ e ∈ es, (alookup seq.contacts e).isSome = true) →
      ∃ seq2, get_stage (pend_contacts g c n es st) g c n = some seq2 ∧
        seq2.sequence_status = seq.sequence_status ∧
        (∀ e ∈ es, ∃ ct, alookup seq2.contacts e = some ct ∧ ct.progress = "Pending") ∧
        (∀ e, e ∉ es → alookup seq2.contacts e = alookup seq.contacts e) := by
  intro es
  induction es with
  | nil =>
    intro st seq h _
    exact ⟨seq, h, rfl, by simp, fun e _ => rfl⟩
  | cons e rest ih =>
    intro st seq h hall
    have he : (alookup seq.contacts e).isSome = true := hall e (by simp)
    have hstep := update_contact_status_ok (s := "Pending") h he (by decide)
    have hpend : pend_contacts g c n (e :: rest) st =
        pend_contacts g c n rest (update_contact_status st g c n e "Pending").2 := rfl
    have hseq1 : get_stage (update_contact_status st g c n e "Pending").2 g c n =
        some { seq with contacts :=
          (modifyAssoc seq.contacts e (fun ct => { ct with progress := "Pending" })) } := by
      rw [hstep]
      show get_stage (save_state _) g c n = _
      rw [get_stage_save, get_stage_updStage, h]
      rfl
    have hall1 : ∀ e2 ∈ rest,
        (alookup (modifyAssoc seq.contacts e
          (fun ct => { ct with progress := "Pending" })) e2).isSome = true := by
      intro e2 he2
      rw [alookup_modifyAssoc_isSome]
      exact hall e2 (by simp [he2])
    obtain ⟨seq2, hg2, hs2, hp2, hu2⟩ := ih _ _ hseq1 hall1
    refine ⟨seq2, by rw [hpend]; exact hg2, by rw [hs2], ?_, ?_⟩
    · intro e2 he2
      rcases List.mem_cons.mp he2 with h1 | h1
      · subst h1
        by_cases hmem : e2 ∈ rest
        · exact hp2 e2 hmem
        · obtain ⟨ct, hct⟩ := Option.isSome_iff_exists.mp he
          refine ⟨{ ct with progress := "Pending" }, ?_, rfl⟩
          rw [hu2 e2 hmem]
          simp [alookup_modifyAssoc_self, hct]
      · exact hp2 e2 h1
    · intro e2 he2
      have hne : e2 ≠ e := fun hx => he2 (by simp [hx])
      have hnr : e2 ∉ rest := fun hx => he2 (by simp [hx])
      rw [hu2 e2 hnr]
      simp [alookup_modifyAssoc_ne _ _ _ _ hne]

theorem current_stage_loop_all_ns (camp : CampaignRec) (total : Nat) :
    ∀ m, (∀ i, 1 ≤ i → i ≤ m → ∃ sq, alookup camp.stages (PKey.int i) = some sq ∧
        sq.sequence_status = "Not Started") →
      current_stage_loop camp total m = .ok none := by
  intro m
  induction m with
  | zero => intro _; rfl
  | succ k ih =>
    intro h
    obtain ⟨sq, hsq, hns⟩ := h (k + 1) (by omega) (le_refl _)
    have : current_stage_loop camp total (k + 1) = current_stage_loop camp total k := by
      simp [current_stage_loop, hsq, hns]
    rw [this]
    exact ih (fun i h1 h2 => h i h1 (by omega))

theorem current_stage_loop_hit (camp : CampaignRec) (total m : Nat) (sq : StageRec)
    (hsq : alookup camp.stages (PKey.int (m + 1)) = some sq)
    (hns : sq.sequence_status ≠ "Not Started") :
    current_stage_loop camp total (m + 1) = .ok (some (m + 1, total)) := by
  simp [current_stage_loop, hsq, hns]

theorem current_stage_loop_sound (camp : CampaignRec) (total : Nat) :
    ∀ m k t, current_stage_loop camp total m = .ok (some (k, t)) →
      t = total ∧ 1 ≤ k ∧ k ≤ m ∧
      (∃ sq, alookup camp.stages (PKey.int k) = some sq ∧
        sq.sequence_status ≠ "Not Started") ∧
      (∀ j, k < j → j ≤ m → ∃ sq, alookup camp.stages (PKey.int j) = some sq ∧
        sq.sequence_status = "Not Started") := by
  intro m
  induction m with
  | zero =>
    intro k t h
    exact absurd h (by simp [current_stage_loop])
  | succ i ih =>
    intro k t h
    unfold current_stage_loop at h
    cases hsq : alookup camp.stages (PKey.int (i + 1)) with
    | none => rw [hsq] at h; simp at h
    | some sq =>
      simp only [hsq] at h
      by_cases hns : sq.sequence_status ≠ "Not Started"
      · rw [if_pos hns] at h
        have hk : i + 1 = k ∧ total = t := by
          have := Except.ok.inj h
          have := Option.some.inj this
          exact ⟨congrArg Prod.fst this, congrArg Prod.snd this⟩
        obtain ⟨hk1, ht1⟩ := hk
        subst hk1; subst ht1
        refine ⟨rfl, by omega, le_refl _, ⟨sq, hsq, hns⟩, ?_⟩
        intro j hj1 hj2
        omega
      · rw [if_neg hns] at h
        have hns2 : sq.sequence_status = "Not Started" := by
          by_contra hx
          exact hns hx
        obtain ⟨ht, hk1, hk2, hex, hall⟩ := ih k t h
        refine ⟨ht, hk1, by omega, hex, ?_⟩
        intro j hj1 hj2
        by_cases hj3 : j ≤ i
        · exact hall j hj1 hj3
        · have : j = i + 1 := by omega
          subst this
          exact ⟨sq, hsq, hns2⟩

theorem mem_dictSet_prop {κ α : Type} [DecidableEq κ]
    (d : List (κ × α)) (k : κ) (v : α) (Q : κ × α → Prop)
    (hd : ∀ p ∈ d, Q p) (hkv : Q (k, v)) :
    ∀ p ∈ dictSet d k v, Q p := by
  induction d with
  | nil =>
    intro p hp
    simp only [dictSet, List.mem_singleton] at hp
    simpa [hp] using hkv
  | cons q rest ih =>
    intro p hp
    obtain ⟨k1, v1⟩ := q
    by_cases h : k1 = k
    · simp only [dictSet, h, if_pos rfl] at hp
      rcases List.mem_cons.mp hp with h1 | h1
      · simpa [h1] using hkv
      · exact hd p (List.mem_cons_of_mem _ h1)
    · simp only [dictSet, if_neg h] at hp
      rcases List.mem_cons.mp hp with h1 | h1
      · exact hd p (by simp [h1])
      · exact ih (fun r hr => hd r (List.mem_cons_of_mem _ hr)) p h1

/-! Concrete states used by the claim theorems, their counterexamples and
their witnesses. -/

/-- A stage that is already Completed, with one contact whose progress is
terminal. -/
def c5stage : StageRec :=
  { sequence_status := "Completed", start_time := "2025-01-01T10:00:00",
    interval := .i 1, template := none,
    contacts := [("a@x.com", { info := [("name", "A")], progress := "Email Sent" })] }

def c5camp : CampaignRec :=
  { campaign_status := "In Progress", stages := [(PKey.int 1, c5stage)] }

def c5st : MState :=
  { campaigns_workflow := [("g", [("c", c5camp)])], stored := none }

/-- C5 counterexample: stage status is not monotonic.  In `c5st` the only
stage of campaign "c" is Completed, yet `update_stage_status` with
"Not Started" succeeds and moves it backward to Not Started — refuting the
claim that no operation sets a Completed stage back. -/
theorem C5_counterexample :
    (get_stage c5st "g" "c" 1).map StageRec.sequence_status = some "Completed" ∧
    (update_stage_status c5st "g" "c" 1 "Not Started").1 = true ∧
    (get_stage (update_stage_status c5st "g" "c" 1 "Not Started").2 "g" "c" 1).map
      StageRec.sequence_status = some "Not Started" := by
  decide

/-- C5 (amended): stage status is not monotonic — `update_stage_status`
(campaign_manager.py lines 112-132) writes any status from the allowed set
{Not Started, In Progress, Completed} to an existing stage and reports
success, with no condition on the stage's current status; in particular a
Completed stage can be set back to In Progress or Not Started. -/
theorem C5_amended (st : MState) (g c : String) (n : Nat) (s : String)
    (grp : CGroup) (camp : CampaignRec)
    (h1 : alookup st.campaigns_workflow g = some grp)
    (h2 : alookup grp c = some camp)
    (h3 : (alookup camp.stages (PKey.int n)).isSome = true)
    (h4 : CAMPAIGN_ALLOWED_STATUSES.contains s = true) :
    (update_stage_status st g c n s).1 = true ∧
    ∃ sq, get_stage (update_stage_status st g c n s).2 g c n = some sq ∧
      sq.sequence_status = s := by
  rw [update_stage_status_ok h1 h2 h3 h4]
  obtain ⟨sq0, hsq0⟩ := Option.isSome_iff_exists.mp h3
  have hgs : get_stage st g c n = some sq0 := by
    rw [get_stage_eq_bind, get_campaign_eq_bind, h1]
    simp [h2, hsq0]
  refine ⟨rfl, { sq0 with sequence_status := s }, ?_, rfl⟩
  show get_stage (save_state _) g c n = _
  rw [get_stage_save, get_stage_updStage, hgs]
  rfl

/-- Witness for C5 (amended) at the concrete Completed stage of `c5st`. -/
theorem C5_amended_witness :
    (update_stage_status c5st "g" "c" 1 "Not Started").1 = true ∧
    ∃ sq, get_stage (update_stage_status c5st "g" "c" 1 "Not Started").2 "g" "c" 1 =
      some sq ∧ sq.sequence_status = "Not Started" :=
  C5_amended c5st "g" "c" 1 "Not Started" [("c", c5camp)] c5camp
    (by decide) (by decide) (by decide) (by decide)

/-- A structurally invalid campaign-group document: its only campaign has
zero stages. -/
def c6invalid : CGroup := [("c", { campaign_status := "Not Started", stages := [] })]

def c6st0 : MState := { campaigns_workflow := [], stored := none }

/-- C6 counterexample: `add_campaigns` performs no structural validation.
Adding a document whose only campaign has zero stages under a fresh group
key succeeds and stores the invalid document — refuting the claim that such
a document fails with a Conflict signal and no mutation. -/
theorem C6_counterexample :
    (∃ camp, alookup c6invalid "c" = some camp ∧ camp.stages = []) ∧
    (add_campaigns c6st0 c6invalid "g").1 = true ∧
    alookup (add_campaigns c6st0 c6invalid "g").2.campaigns_workflow "g" =
      some c6invalid := by
  exact ⟨⟨{ campaign_status := "Not Started", stages := [] }, by decide, rfl⟩,
    by decide, by decide⟩

/-- C6 (amended): `add_campaigns` (campaign_manager.py lines 35-44) fails
(False, no mutation) exactly when the group key is already present — leaving
the already-stored group untouched, so a second add with the same key is
refused (Scenario D) — and otherwise inserts the document unchanged and
unvalidated (any document, including one with a zero-stage campaign, is
accepted under a fresh key). -/
theorem C6_amended (st : MState) (data data2 : CGroup) (name : String) :
    ((alookup st.campaigns_workflow name).isSome = true →
      add_campaigns st data name = (false, st)) ∧
    (alookup st.campaigns_workflow name = none →
      (add_campaigns st data name).1 = true ∧
      alookup (add_campaigns st data name).2.campaigns_workflow name = some data ∧
      add_campaigns (add_campaigns st data name).2 data2 name =
        (false, (add_campaigns st data name).2)) := by
  constructor
  · intro h
    simp [add_campaigns, h]
  · intro h
    simp [add_campaigns, h, save_state, alookup_dictSet_self]

/-- Witness for C6 (amended): a fresh add succeeds and a duplicate add of
the same key is refused with no mutation. -/
theorem C6_amended_witness :
    (add_campaigns c6st0 c6invalid "g").1 = true ∧
    alookup (add_campaigns c6st0 c6invalid "g").2.campaigns_workflow "g" =
      some c6invalid ∧
    add_campaigns (add_campaigns c6st0 c6invalid "g").2 c6invalid "g" =
      (false, (add_campaigns c6st0 c6invalid "g").2) :=
  (C6_amended c6st0 c6invalid c6invalid "g").2 (by decide)

def c7st : MState :=
  { campaigns_workflow := [("g", [("c", c5camp)])], stored := none }

/-- C7 counterexample: the persist setting does not gate store writes.
`FILE_PERSISTENCE` is false, yet a successful mutation rewrites the store
(the `stored` component changes from `none` to the new workflow) — refuting
the claim that no store write occurs when persistence is disabled. -/
theorem C7_counterexample :
    FILE_PERSISTENCE = false ∧
    (update_campaign_status c7st "g" "c" "In Progress").1 = true ∧
    (update_campaign_status c7st "g" "c" "In Progress").2.stored ≠ c7st.stored := by
  decide

/-- C7 (amended): every successful Campaign Model mutation unconditionally
rewrites the persisted store with the post-mutation workflow;
`config.FILE_PERSISTENCE` (false) is never consulted by `save_state` or any
of its callers, so disabling persistence does not suppress store writes. -/
theorem C7_amended :
    FILE_PERSISTENCE = false ∧
    (∀ st g c s, (update_campaign_status st g c s).1 = true →
      (update_campaign_status st g c s).2.stored =
        some (update_campaign_status st g c s).2.campaigns_workflow) ∧
    (∀ st g c n s, (update_stage_status st g c n s).1 = true →
      (update_stage_status st g c n s).2.stored =
        some (update_stage_status st g c n s).2.campaigns_workflow) ∧
    (∀ st g c n e s, (update_contact_status st g c n e s).1 = true →
      (update_contact_status st g c n e s).2.stored =
        some (update_contact_status st g c n e s).2.campaigns_workflow) ∧
    (∀ st d name, (add_campaigns st d name).1 = true →
      (add_campaigns st d name).2.stored =
        some (add_campaigns st d name).2.campaigns_workflow) ∧
    (∀ st name, (del_campaigns st name).1 = true →
      (del_campaigns st name).2.stored =
        some (del_campaigns st name).2.campaigns_workflow) := by
  refine ⟨rfl, ?_, ?_, ?_, ?_, ?_⟩
  · intro st g c s h
    cases h1 : alookup st.campaigns_workflow g with
    | none => simp [update_campaign_status, h1] at h
    | some grp =>
      cases h2 : alookup grp c with
      | none => simp [update_campaign_status, h1, h2] at h
      | some camp =>
        by_cases h4 : s ∈ CAMPAIGN_ALLOWED_STATUSES
        · simp [update_campaign_status, h1, h2, h4, save_state]
        · simp [update_campaign_status, h1, h2, h4] at h
  · intro st g c n s h
    cases h1 : alookup st.campaigns_workflow g with
    | none => simp [update_stage_status, h1] at h
    | some grp =>
      cases h2 : alookup grp c with
      | none => simp [update_stage_status, h1, h2] at h
      | some camp =>
        by_cases h3 : (alookup camp.stages (PKey.int n)).isSome = true
        · by_cases h4 : s ∈ CAMPAIGN_ALLOWED_STATUSES
          · simp [update_stage_status, h1, h2, h3, h4, save_state]
          · simp [update_stage_status, h1, h2, h3, h4] at h
        · simp [update_stage_status, h1, h2, h3] at h
  · intro st g c n e s h
    cases hg : get_stage st g c n with
    | none => simp [update_contact_status, hg] at h
    | some seq =>
      by_cases he : (alookup seq.contacts e).isSome = true
      · by_cases hs : s ∈ CONTACT_ALLOWED_STATUSES
        · simp [update_contact_status, hg, he, hs, save_state]
        · simp [update_contact_status, hg, he, hs] at h
      · simp [update_contact_status, hg, he] at h
  · intro st d name h
    by_cases h1 : (alookup st.campaigns_workflow name).isSome = true
    · simp [add_campaigns, h1] at h
    · simp [add_campaigns, h1, save_state]
  · intro st name h
    by_cases h1 : (alookup st.campaigns_workflow name).isSome = true
    · simp [del_campaigns, h1, save_state]
    · simp [del_campaigns, h1] at h

/-- Witness for C7 (amended): the concrete successful mutation of
`C7_counterexample` does write the store. -/
theorem C7_amended_witness :
    (update_campaign_status c7st "g" "c" "In Progress").1 = true ∧
    (update_campaign_status c7st "g" "c" "In Progress").2.stored =
      some (update_campaign_status c7st "g" "c" "In Progress").2.campaigns_workflow :=
  ⟨by decide, C7_amended.2.1 c7st "g" "c" "In Progress" (by decide)⟩

def c10camp : CampaignRec :=
  { campaign_status := "Completed", stages := [(PKey.int 1, c5stage)] }

def c10st : MState :=
  { campaigns_workflow := [("g", [("c", c10camp)])], stored := none }

/-- C10: for every known group with at least one campaign,
`completed_all_campaigns` raises TypeError — its loop binds the campaign
dicts (the mapping's values) as campaign ids and `get_campaign` then tests
the unhashable dict for key membership — so the group-eviction step of
main's control loop (main.py lines 241-242) propagates the exception and
never reaches `del_campaigns`. -/
theorem C10_theorem (st : MState) (g : String) (grp : CGroup)
    (h1 : alookup st.campaigns_workflow g = some grp) (h2 : grp ≠ []) :
    completed_all_campaigns st g = .error .typeError ∧
    main_group_cleanup st g = .error .typeError := by
  obtain ⟨p, rest, rfl⟩ := List.exists_cons_of_ne_nil h2
  obtain ⟨cid, camp⟩ := p
  have hloop : completed_all_loop st g ((cid, camp) :: rest) = .error .typeError := by
    simp [completed_all_loop, get_campaign_dictkey, h1]
  have hc : completed_all_campaigns st g = .error .typeError := by
    simp [completed_all_campaigns, get_campaigns, h1, hloop]
  exact ⟨hc, by simp [main_group_cleanup, hc]⟩

/-- Witness for C10 at a concrete one-campaign group in which every campaign
is Completed: even then the check raises instead of returning true, and the
group is not evicted. -/
theorem C10_witness :
    completed_all_campaigns c10st "g" = .error .typeError ∧
    main_group_cleanup c10st "g" = .error .typeError :=
  C10_theorem c10st "g" [("c", c10camp)] (by decide) (by decide)

/-- A stage whose only contact carries the "Skip" progress that the
ingestion path assigns to contacts of lapsed stages (and whose stage status
is "Completed", as ingestion leaves it). -/
def c2stage : StageRec :=
  { sequence_status := "Completed", start_time := "", interval := .s "",
    template := none,
    contacts := [("a@x.com", { info := [("name", "A")], progress := "Skip" })] }

def c2camp : CampaignRec :=
  { campaign_status := "In Progress", stages := [(PKey.int 1, c2stage)] }

def c2st : MState :=
  { campaigns_workflow := [("g", [("c", c2camp)])], stored := none }

/-- C2 counterexample: "Skip" is not terminal for `completed_stage`.  Every
contact of `c2stage` has a progress in the terminal set claimed by the spec
({Email Sent, Reply Received, Closed, Skip}), yet the check returns false and
mutates nothing — refuting the claimed iff (and the cheap-true re-check of an
already-Completed lapsed stage). -/
theorem C2_counterexample :
    (∀ p ∈ c2stage.contacts, p.2.progress ∈ SPEC_TERMINAL_PROGRESS) ∧
    get_stage c2st "g" "c" 1 = some c2stage ∧
    (completed_stage c2st "g" "c" 1).1 = false ∧
    (completed_stage c2st "g" "c" 1).2 = c2st := by
  decide

/-- C2 (amended): for an existing stage, `completed_stage`
(campaign_manager.py lines 286-302) returns true iff every contact's
progress is in {Email Sent, Reply Received, Closed} — "Skip" is NOT in the
source's terminal set, so a Skip contact prevents completion; when true it
durably marks the stage Completed (the update rewrites the store); and
adding one contact with a progress outside that set to an otherwise-terminal
stage makes the check return false. -/
theorem C2_amended (st : MState) (g c : String) (n : Nat) (seq : StageRec)
    (h : get_stage st g c n = some seq) :
    ((completed_stage st g c n).1 = true ↔
      ∀ p ∈ seq.contacts, p.2.progress = "Email Sent" ∨
        p.2.progress = "Reply Received" ∨ p.2.progress = "Closed") ∧
    ((completed_stage st g c n).1 = true →
      (∃ sq, get_stage (completed_stage st g c n).2 g c n = some sq ∧
        sq.sequence_status = "Completed") ∧
      (completed_stage st g c n).2.stored =
        some (completed_stage st g c n).2.campaigns_workflow) ∧
    (∀ e ct, ¬(ct.progress = "Email Sent" ∨ ct.progress = "Reply Received" ∨
        ct.progress = "Closed") →
      (completed_stage
        (updStage st g c n (fun sq => { sq with contacts := ((e, ct) :: sq.contacts) }))
        g c n).1 = false) := by
  have hfst : (completed_stage st g c n).1 =
      seq.contacts.all (fun p => terminal_progress p.2.progress) := by
    cases hall : seq.contacts.all (fun p => terminal_progress p.2.progress) <;>
      simp [completed_stage, h, hall]
  refine ⟨?_, ?_, ?_⟩
  · rw [hfst]
    simp [List.all_eq_true, terminal_progress]
  · intro htrue
    rw [hfst] at htrue
    have hcs : completed_stage st g c n =
        (true, (update_stage_status st g c n "Completed").2) := by
      simp [completed_stage, h, htrue]
    obtain ⟨grp, camp, h1, h2, h3⟩ := get_stage_some_elim h
    have h3s : (alookup camp.stages (PKey.int n)).isSome = true := by simp [h3]
    have huss := update_stage_status_ok (s := "Completed") h1 h2 h3s (by decide)
    constructor
    · refine ⟨{ seq with sequence_status := "Completed" }, ?_, rfl⟩
      rw [hcs]
      show get_stage (update_stage_status st g c n "Completed").2 g c n = _
      rw [huss]
      show get_stage (save_state _) g c n = _
      rw [get_stage_save, get_stage_updStage, h]
      rfl
    · rw [hcs]
      show (update_stage_status st g c n "Completed").2.stored = _
      rw [huss]
      rfl
  · intro e ct hct
    have hst2 : get_stage
        (updStage st g c n (fun sq => { sq with contacts := ((e, ct) :: sq.contacts) }))
        g c n = some { seq with contacts := ((e, ct) :: seq.contacts) } := by
      rw [get_stage_updStage, h]
      rfl
    have hterm : terminal_progress ct.progress = false := by
      simpa [terminal_progress] using hct
    simp [completed_stage, hst2, List.all_cons, hterm]

/-- A stage whose only contact already has terminal progress. -/
def c2wstage : StageRec :=
  { sequence_status := "In Progress", start_time := "2025-01-01T10:00:00",
    interval := .i 1, template := none,
    contacts := [("a@x.com", { info := [], progress := "Email Sent" })] }

def c2wcamp : CampaignRec :=
  { campaign_status := "In Progress", stages := [(PKey.int 1, c2wstage)] }

def c2wst : MState :=
  { campaigns_workflow := [("g", [("c", c2wcamp)])], stored := none }

/-- Witness for C2 (amended) at a concrete all-terminal stage. -/
theorem C2_amended_witness :
    ((completed_stage c2wst "g" "c" 1).1 = true ↔
      ∀ p ∈ c2wstage.contacts, p.2.progress = "Email Sent" ∨
        p.2.progress = "Reply Received" ∨ p.2.progress = "Closed") ∧
    ((completed_stage c2wst "g" "c" 1).1 = true →
      (∃ sq, get_stage (completed_stage c2wst "g" "c" 1).2 "g" "c" 1 = some sq ∧
        sq.sequence_status = "Completed") ∧
      (completed_stage c2wst "g" "c" 1).2.stored =
        some (completed_stage c2wst "g" "c" 1).2.campaigns_workflow) ∧
    (∀ e ct, ¬(ct.progress = "Email Sent" ∨ ct.progress = "Reply Received" ∨
        ct.progress = "Closed") →
      (completed_stage
        (updStage c2wst "g" "c" 1
          (fun sq => { sq with contacts := ((e, ct) :: sq.contacts) }))
        "g" "c" 1).1 = false) :=
  C2_amended c2wst "g" "c" 1 c2wstage (by decide)

def c9camp : CampaignRec :=
  { campaign_status := "In Progress",
    stages := [(PKey.int 1,
      { sequence_status := "Not Started", start_time := "2025-01-01T10:00:00",
        interval := .i 1, template := none,
        contacts := [("a@x.com", { info := [], progress := "Not Started" })] })] }

def c9st : MState :=
  { campaigns_workflow := [("g", [("c", c9camp)])], stored := none }

/-- C9: for an existing campaign whose status is not "Not Started" but whose
stages (present under their integer keys) are all "Not Started", the
downward scan of `get_current_stage` (campaign_manager.py lines 181-183)
falls out of the loop and the function returns Python `None` instead of a
pair; `start_campaign` (line 247), which immediately unpacks the result into
two values, therefore raises TypeError. -/
theorem C9_theorem (st : MState) (g c : String) (grp : CGroup) (camp : CampaignRec)
    (h1 : alookup st.campaigns_workflow g = some grp)
    (h2 : alookup grp c = some camp)
    (h3 : camp.campaign_status ≠ "Not Started")
    (h4 : ∀ i ∈ List.range camp.stages.length,
      (alookup camp.stages (PKey.int (i + 1))).map StageRec.sequence_status =
        some "Not Started") :
    get_current_stage st g c = .ok none ∧
    start_campaign st g c = .error .typeError := by
  have hc : get_campaign st g c = some camp := by
    rw [get_campaign_eq_bind, h1]
    simpa using h2
  have h4b : ∀ i, 1 ≤ i → i ≤ camp.stages.length →
      ∃ sq, alookup camp.stages (PKey.int i) = some sq ∧
        sq.sequence_status = "Not Started" := by
    intro i hi1 hi2
    have hmem : i - 1 ∈ List.range camp.stages.length := by
      rw [List.mem_range]
      omega
    have := h4 (i - 1) hmem
    rw [show i - 1 + 1 = i by omega] at this
    cases hsq : alookup camp.stages (PKey.int i) with
    | none => rw [hsq] at this; simp at this
    | some sq =>
      rw [hsq] at this
      simp only [Option.map_some', Option.some.injEq] at this
      exact ⟨sq, rfl, this⟩
  have hloop := current_stage_loop_all_ns camp camp.stages.length
    camp.stages.length h4b
  have hnone : get_current_stage st g c = .ok none := by
    simp [get_current_stage, hc, h3, hloop]
  exact ⟨hnone, by simp [start_campaign, hc, hnone]⟩

/-- Witness for C9 at a concrete In-Progress campaign whose single stage is
Not Started. -/
theorem C9_witness :
    get_current_stage c9st "g" "c" = .ok none ∧
    start_campaign c9st "g" "c" = .error .typeError :=
  C9_theorem c9st "g" "c" [("c", c9camp)] c9camp
    (by decide) (by decide) (by decide) (by decide)

def c1stage1 : StageRec :=
  { sequence_status := "Completed", start_time := "2025-01-01T10:00:00",
    interval := .i 1, template := none,
    contacts := [("a@x.com", { info := [], progress := "Email Sent" })] }

def c1stage2 : StageRec :=
  { sequence_status := "Not Started", start_time := "2025-01-02T10:00:00",
    interval := .i 1, template := none,
    contacts := [("a@x.com", { info := [], progress := "Not Started" })] }

/-- An In-Progress campaign whose stage 1 is Completed and stage 2 is still
Not Started — the ordinary state right after stage 1 finishes and before the
control loop advances. -/
def c1camp : CampaignRec :=
  { campaign_status := "In Progress",
    stages := [(PKey.int 1, c1stage1), (PKey.int 2, c1stage2)] }

def c1st : MState :=
  { campaigns_workflow := [("g", [("c", c1camp)])], stored := none }

/-- C1 counterexample: the code does not implement the claimed
scan-from-1-upward-first-non-Completed rule.  On `c1camp` that rule (the
clearly-named `current_stage_spec`) yields stage 2, but `get_current_stage`
scans downward for the first non-Not-Started stage and returns stage 1. -/
theorem C1_counterexample :
    get_current_stage c1st "g" "c" = .ok (some (1, 2)) ∧
    current_stage_spec c1camp = 2 ∧
    get_current_stage c1st "g" "c" ≠
      .ok (some (current_stage_spec c1camp, c1camp.stages.length)) := by
  refine ⟨rfl, by decide, ?_⟩
  intro hx
  rw [show current_stage_spec c1camp = 2 from by decide] at hx
  rw [show get_current_stage c1st "g" "c" = .ok (some (1, 2)) from rfl] at hx
  simp [show c1camp.stages.length = 2 from by decide] at hx

/-- C1 (amended): `get_current_stage` (campaign_manager.py lines 169-183)
returns `(1, total)` without scanning when the campaign status is
"Not Started"; otherwise it scans stage numbers DOWNWARD from the total and
returns the first (i.e. highest) stage whose status is not "Not Started" —
so when every stage is Completed it returns the last stage number, but in
general it is the backward scan, not the spec's forward
first-non-Completed scan.  `total` is the stage-key count
(`len(campaign) - 1`). -/
theorem C1_amended (st : MState) (g c : String) (grp : CGroup) (camp : CampaignRec)
    (h1 : alookup st.campaigns_workflow g = some grp)
    (h2 : alookup grp c = some camp) :
    (camp.campaign_status = "Not Started" →
      get_current_stage st g c = .ok (some (1, camp.stages.length))) ∧
    (camp.campaign_status ≠ "Not Started" →
      1 ≤ camp.stages.length →
      (∀ i ∈ List.range camp.stages.length,
        (alookup camp.stages (PKey.int (i + 1))).map StageRec.sequence_status =
          some "Completed") →
      get_current_stage st g c =
        .ok (some (camp.stages.length, camp.stages.length))) ∧
    (camp.campaign_status ≠ "Not Started" →
      ∀ k t, get_current_stage st g c = .ok (some (k, t)) →
        t = camp.stages.length ∧ 1 ≤ k ∧ k ≤ camp.stages.length ∧
        (∃ sq, alookup camp.stages (PKey.int k) = some sq ∧
          sq.sequence_status ≠ "Not Started") ∧
        (∀ j, k < j → j ≤ camp.stages.length →
          ∃ sq, alookup camp.stages (PKey.int j) = some sq ∧
            sq.sequence_status = "Not Started")) := by
  have hc : get_campaign st g c = some camp := by
    rw [get_campaign_eq_bind, h1]
    simpa using h2
  refine ⟨?_, ?_, ?_⟩
  · intro hns
    simp [get_current_stage, hc, hns]
  · intro hns hlen hall
    obtain ⟨m, hm⟩ : ∃ m, camp.stages.length = m + 1 :=
      ⟨camp.stages.length - 1, by omega⟩
    have htop := hall (m) (by rw [List.mem_range]; omega)
    cases hsq : alookup camp.stages (PKey.int (m + 1)) with
    | none => rw [hsq] at htop; simp at htop
    | some sq =>
      rw [hsq] at htop
      simp only [Option.map_some', Option.some.injEq] at htop
      have hhit := current_stage_loop_hit camp camp.stages.length m sq hsq
        (by rw [htop]; decide)
      have : get_current_stage st g c =
          current_stage_loop camp camp.stages.length camp.stages.length := by
        simp [get_current_stage, hc, hns]
      rw [this, hm, ← hm, hm] at *
      rw [this]
      rw [hm]
      rw [hm] at hhit
      exact hhit
  · intro hns k t hkt
    have : get_current_stage st g c =
        current_stage_loop camp camp.stages.length camp.stages.length := by
      simp [get_current_stage, hc, hns]
    rw [this] at hkt
    exact current_stage_loop_sound camp camp.stages.length camp.stages.length k t hkt

def c1wcamp : CampaignRec :=
  { campaign_status := "Not Started", stages := [(PKey.int 1, c1stage2)] }

def c1wst : MState :=
  { campaigns_workflow := [("g", [("c", c1wcamp)])], stored := none }

def c1ccamp : CampaignRec :=
  { campaign_status := "Completed",
    stages := [(PKey.int 1, c1stage1),
      (PKey.int 2, { c1stage2 with sequence_status := "Completed" })] }

def c1cst : MState :=
  { campaigns_workflow := [("g", [("c", c1ccamp)])], stored := none }

/-- Witness for C1 (amended): a fresh unstarted campaign reports stage 1,
and a campaign whose stages are all Completed reports the total (2). -/
theorem C1_amended_witness :
    get_current_stage c1wst "g" "c" = .ok (some (1, 1)) ∧
    get_current_stage c1cst "g" "c" = .ok (some (2, 2)) :=
  ⟨(C1_amended c1wst "g" "c" [("c", c1wcamp)] c1wcamp (by decide) (by decide)).1
      (by decide),
   (C1_amended c1cst "g" "c" [("c", c1ccamp)] c1ccamp (by decide) (by decide)).2.1
      (by decide) (by decide) (by decide)⟩

/-- Proof-side observer: the success flag `start_campaign` returns, `none`
when it raises. -/
def run_start_flag (st : MState) (g c : String) : Option Bool :=
  match start_campaign st g c with
  | .ok (b, _) => some b
  | .error _ => none

/-- Proof-side observer: the state `start_campaign` leaves on normal return,
`none` when it raises. -/
def run_start_state (st : MState) (g c : String) : Option MState :=
  match start_campaign st g c with
  | .ok (_, s) => some s
  | .error _ => none

def c4stage : StageRec :=
  { sequence_status := "In Progress", start_time := "2025-01-01T10:00:00",
    interval := .i 1, template := none,
    contacts := [("a@x.com", { info := [], progress := "Email Sent" })] }

def c4camp : CampaignRec :=
  { campaign_status := "In Progress", stages := [(PKey.int 1, c4stage)] }

def c4st : MState :=
  { campaigns_workflow := [("g", [("c", c4camp)])], stored := none }

/-- C4 counterexample: `start_campaign` is NOT a no-op on an already-started
campaign.  `c4camp` is In Progress, yet the call returns success and resets
the stage-1 contact's progress from "Email Sent" back to "Pending" —
refuting the claim that it changes no contact progress and signals
AlreadyStarted. -/
theorem C4_counterexample :
    c4camp.campaign_status ≠ "Not Started" ∧
    ((get_stage c4st "g" "c" 1).map
      (fun sq => (alookup sq.contacts "a@x.com").map ContactRec.progress) =
        some (some "Email Sent")) ∧
    run_start_flag c4st "g" "c" = some true ∧
    (run_start_state c4st "g" "c").map (fun st3 =>
      (get_stage st3 "g" "c" 1).map
        (fun sq => (alookup sq.contacts "a@x.com").map ContactRec.progress)) =
      some (some (some "Pending")) := by
  decide

/-- C4 (amended): `start_campaign` (campaign_manager.py lines 237-262) only
LOGS a warning when the campaign has already started (lines 244-245 have no
early return) and proceeds in every case: whenever the campaign exists, the
current-stage query returns a pair and that stage exists, it sets every
contact of the current stage to "Pending" (regardless of prior progress),
the stage to In Progress and the campaign to In Progress, returning True —
with no condition on the campaign's prior status. -/
theorem C4_amended (st : MState) (g c : String) (camp : CampaignRec)
    (k t : Nat) (seq : StageRec)
    (hc : get_campaign st g c = some camp)
    (hcs : get_current_stage st g c = .ok (some (k, t)))
    (hs : get_stage st g c k = some seq) :
    ∃ st3, start_campaign st g c = .ok (true, st3) ∧
      (∃ camp3, get_campaign st3 g c = some camp3 ∧
        camp3.campaign_status = "In Progress") ∧
      (∃ seq3, get_stage st3 g c k = some seq3 ∧
        seq3.sequence_status = "In Progress" ∧
        ∀ e ∈ seq.contacts.map Prod.fst,
          ∃ ct, alookup seq3.contacts e = some ct ∧ ct.progress = "Pending") := by
  have hrun : start_campaign st g c =
      .ok (true,
        (update_campaign_status
          (update_stage_status
            (pend_contacts g c k (seq.contacts.map Prod.fst) st) g c k
            "In Progress").2
          g c "In Progress").2) := by
    simp [start_campaign, hc, hcs, hs]
  have hall : ∀ e ∈ seq.contacts.map Prod.fst,
      (alookup seq.contacts e).isSome = true :=
    fun e he => alookup_isSome_of_mem_keys seq.contacts e he
  obtain ⟨seq2, hg1, _, hp2, _⟩ :=
    pend_contacts_spec g c k (seq.contacts.map Prod.fst) st seq hs hall
  obtain ⟨grp1, camp1, h11, h21, h31⟩ := get_stage_some_elim hg1
  have h31s : (alookup camp1.stages (PKey.int k)).isSome = true := by simp [h31]
  have huss := update_stage_status_ok (s := "In Progress") h11 h21 h31s (by decide)
  have hg2 : get_stage
      (update_stage_status (pend_contacts g c k (seq.contacts.map Prod.fst) st)
        g c k "In Progress").2 g c k =
      some { seq2 with sequence_status := "In Progress" } := by
    rw [huss]
    show get_stage (save_state _) g c k = _
    rw [get_stage_save, get_stage_updStage, hg1]
    rfl
  obtain ⟨grp2, camp2, h12, h22, _⟩ := get_stage_some_elim hg2
  have hucs := update_campaign_status_ok (s := "In Progress") h12 h22 (by decide)
  refine ⟨_, hrun, ?_, ?_⟩
  · have hgc2 : get_campaign
        (update_stage_status (pend_contacts g c k (seq.contacts.map Prod.fst) st)
          g c k "In Progress").2 g c = some camp2 := by
      rw [get_campaign_eq_bind, h12]
      simpa using h22
    refine ⟨{ camp2 with campaign_status := "In Progress" }, ?_, rfl⟩
    rw [hucs]
    show get_campaign (save_state _) g c = _
    rw [get_campaign_save, get_campaign_updCampaign, hgc2]
    rfl
  · refine ⟨{ seq2 with sequence_status := "In Progress" }, ?_, rfl, ?_⟩
    · rw [hucs]
      show get_stage (save_state _) g c k = _
      rw [get_stage_save, get_stage_upd_status]
      exact hg2
    · intro e he
      exact hp2 e he

/-- Witness for C4 (amended) at the already-started `c4st`. -/
theorem C4_amended_witness :
    ∃ st3, start_campaign c4st "g" "c" = .ok (true, st3) ∧
      (∃ camp3, get_campaign st3 "g" "c" = some camp3 ∧
        camp3.campaign_status = "In Progress") ∧
      (∃ seq3, get_stage st3 "g" "c" 1 = some seq3 ∧
        seq3.sequence_status = "In Progress" ∧
        ∀ e ∈ c4stage.contacts.map Prod.fst,
          ∃ ct, alookup seq3.contacts e = some ct ∧ ct.progress = "Pending") :=
  C4_amended c4st "g" "c" c4camp 1 1 c4stage (by decide) rfl (by decide)

/-- `datetime.fromisoformat` at the single start-time string used by the C3
scenario: it parses to instant 90, ten seconds before "now" = 100. -/
def c3fromiso : String → Int := fun _ => 90

def c3stage : StageRec :=
  { sequence_status := "Not Started", start_time := "2025-01-01T00:00:00",
    interval := .i 1, template := none,
    contacts := [("a@x.com", { info := [], progress := "Not Started" })] }

def c3camp : CampaignRec :=
  { campaign_status := "Not Started", stages := [(PKey.int 1, c3stage)] }

def c3ss : SState :=
  { mgr := { campaigns_workflow := [("g", [("c", c3camp)])], stored := none },
    jobs := [] }

/-- Proof-side observer: the exception the `schedule_campaign` body raises
before the blanket except hides it, `none` on normal return. -/
def schedule_campaign_err (fromiso : String → Int) (now : Int) (ss : SState)
    (g c : String) : Option PyErr :=
  match schedule_campaign_body fromiso now ss g c with
  | .error (e, _) => some e
  | .ok _ => none

/-- C3: a stage whose start time is 10 seconds in the past is NOT corrected
and scheduling does NOT succeed.  The recovery branch (scheduler.py lines
26-31) computes `datetime.now() + timedelta(seconds=5)` but then calls
`self.campaign_manager.update_stage_start_time(...)`, a method that
`CampaignManager` does not define, so the branch raises AttributeError; the
blanket except swallows it and `schedule_campaign` returns False having
registered no job. -/
theorem C3_theorem :
    schedule_time_exceeded (c3fromiso "2025-01-01T00:00:00") 100 = true ∧
    schedule_campaign_err c3fromiso 100 c3ss "g" "c" = some .attributeError ∧
    (schedule_campaign c3fromiso 100 c3ss "g" "c").1 = false ∧
    (schedule_campaign c3fromiso 100 c3ss "g" "c").2.jobs = [] := by
  decide

theorem build_sequences_str_keys (contactsFor : Nat → Option (List ContactRow))
    (tmap : List (Nat × TemplateRec)) :
    ∀ (seqs : List SeqEntry) (status : String) (stages : List (PKey × StageRec)),
      (∀ p ∈ stages, ∃ s, p.1 = PKey.str s) →
      ∀ status2 stages2,
        build_sequences contactsFor tmap seqs status stages = .ok (status2, stages2) →
        ∀ p ∈ stages2, ∃ s, p.1 = PKey.str s := by
  intro seqs
  induction seqs with
  | nil =>
    intro status stages hstr status2 stages2 hok
    simp only [build_sequences, Except.ok.injEq, Prod.mk.injEq] at hok
    rw [← hok.2]
    exact hstr
  | cons seq rest ih =>
    intro status stages hstr status2 stages2 hok
    cases hc : contactsFor seq.sequence with
    | none =>
      by_cases h1 : seq.sequence = 1
      · rw [h1] at hc
        simp only [build_sequences, h1, hc, reduceIte, Except.ok.injEq,
          Prod.mk.injEq] at hok
        rw [← hok.2]
        exact hstr
      · cases hprev : alookup stages (PKey.str (toString (seq.sequence - 1))) with
        | none => simp [build_sequences, hc, h1, hprev] at hok
        | some prev =>
          simp only [build_sequences] at hok
          rw [hc] at hok
          simp only [if_neg h1, hprev] at hok
          cases htm : alookup tmap seq.sequence with
          | none =>
            rw [htm] at hok
            exact ih status stages hstr status2 stages2 hok
          | some tpl =>
            by_cases hexp : seq.start_time ≠ "expired"
            · simp only [htm, if_pos hexp] at hok
              exact ih _ _ (mem_dictSet_prop _ _ _ _ hstr ⟨_, rfl⟩) _ _ hok
            · simp only [htm, if_neg hexp] at hok
              exact ih _ _ (mem_dictSet_prop _ _ _ _ hstr ⟨_, rfl⟩) _ _ hok
    | some rows =>
      simp only [build_sequences] at hok
      rw [hc] at hok
      simp only [] at hok
      cases htm : alookup tmap seq.sequence with
      | none =>
        rw [htm] at hok
        exact ih status stages hstr status2 stages2 hok
      | some tpl =>
        by_cases hexp : seq.start_time ≠ "expired"
        · simp only [htm, if_pos hexp] at hok
          exact ih _ _ (mem_dictSet_prop _ _ _ _ hstr ⟨_, rfl⟩) _ _ hok
        · simp only [htm, if_neg hexp] at hok
          exact ih _ _ (mem_dictSet_prop _ _ _ _ hstr ⟨_, rfl⟩) _ _ hok

theorem build_campaigns_str_keys (extract : String → List String)
    (contactsFor : String → Nat → Option (List ContactRow))
    (templatesFor : String → List TemplateEntry) :
    ∀ (scheds : List SchedCampaign) (acc : CGroup),
      (∀ p1 ∈ acc, ∀ p2 ∈ p1.2.stages, ∃ s, p2.1 = PKey.str s) →
      ∀ grp, build_campaigns extract contactsFor templatesFor scheds acc = .ok grp →
        ∀ p1 ∈ grp, ∀ p2 ∈ p1.2.stages, ∃ s, p2.1 = PKey.str s := by
  intro scheds
  induction scheds with
  | nil =>
    intro acc hacc grp hok
    simp only [build_campaigns, Except.ok.injEq] at hok
    rw [← hok]
    exact hacc
  | cons sc rest ih =>
    intro acc hacc grp hok
    cases hbs : build_sequences (contactsFor sc.campaign_id)
        (build_template_mapping extract (templatesFor sc.campaign_id))
        sc.sequences "Not Started" [] with
    | error e => simp [build_campaigns, hbs] at hok
    | ok pr =>
      obtain ⟨status, stages⟩ := pr
      simp only [build_campaigns, hbs] at hok
      have hstages : ∀ p ∈ stages, ∃ s, p.1 = PKey.str s :=
        build_sequences_str_keys _ _ sc.sequences "Not Started" [] (by simp)
          status stages hbs
      have hacc2 : ∀ p1 ∈ dictSet acc sc.campaign_id
          { campaign_status := status, stages := stages },
          ∀ p2 ∈ p1.2.stages, ∃ s, p2.1 = PKey.str s := by
        apply mem_dictSet_prop
        · exact hacc
        · intro p2 hp2
          exact hstages p2 hp2
      exact ih _ hacc2 grp hok

/-- C8: (a) every campaign-group document produced by the ingestion build
loop keys its stage entries with `str(sequence_id)`, i.e. string keys only;
(b) on any stored campaign whose stage keys are all strings, the Campaign
Model stage operations — which look up `PKey.int` keys — report not-found:
`get_stage` returns `{}`, and `update_stage_status` / `update_contact_status`
return False without touching the state. -/
theorem C8_theorem :
    (∀ (extract : String → List String)
        (contactsFor : String → Nat → Option (List ContactRow))
        (templatesFor : String → List TemplateEntry)
        (scheds : List SchedCampaign) (grp : CGroup),
      build_campaigns extract contactsFor templatesFor scheds [] = .ok grp →
      ∀ p1 ∈ grp, ∀ p2 ∈ p1.2.stages, ∃ s, p2.1 = PKey.str s) ∧
    (∀ (st : MState) (g c : String) (n : Nat) (grp : CGroup) (camp : CampaignRec),
      alookup st.campaigns_workflow g = some grp →
      alookup grp c = some camp →
      (∀ p ∈ camp.stages, ∃ s, p.1 = PKey.str s) →
      get_stage st g c n = none ∧
      (∀ s, update_stage_status st g c n s = (false, st)) ∧
      (∀ e s, update_contact_status st g c n e s = (false, st))) := by
  constructor
  · intro extract contactsFor templatesFor scheds grp hok
    exact build_campaigns_str_keys extract contactsFor templatesFor scheds []
      (by simp) grp hok
  · intro st g c n grp camp h1 h2 hstr
    have hnone : alookup camp.stages (PKey.int n) = none :=
      alookup_int_of_all_str _ hstr n
    have hgs : get_stage st g c n = none := by
      rw [get_stage_eq_bind, get_campaign_eq_bind, h1]
      simp [h2, hnone]
    refine ⟨hgs, ?_, ?_⟩
    · intro s
      simp [update_stage_status, h1, h2, hnone]
    · intro e s
      simp [update_contact_status, hgs]

def c8extract : String → List String := fun _ => []

def c8contactsFor : String → Nat → Option (List ContactRow) :=
  fun _ _ => some [{ email := "a@x.com", info := [("name", "A")] }]

def c8templatesFor : String → List TemplateEntry :=
  fun _ => [{ sequence := 1, subject := "subj", content := "body" }]

def c8sched : List SchedCampaign :=
  [{ campaign_id := "c",
     sequences := [{ sequence := 1, start_time := "2025-01-11T10:00:00",
                     interval := 1 }] }]

def c8tpl : TemplateRec :=
  { subject := "subj", content := "body",
    placeholders_subject := [], placeholders_content := [] }

def c8camp : CampaignRec :=
  { campaign_status := "Not Started",
    stages := [(PKey.str "1",
      { sequence_status := "Not Started", start_time := "2025-01-11T10:00:00",
        interval := .i 1, template := some c8tpl,
        contacts := [("a@x.com",
          { info := [("name", "A")], progress := "Not Started" })] })] }

def c8grp : CGroup := [("c", c8camp)]

def c8mst : MState := { campaigns_workflow := [("g", c8grp)], stored := none }

/-- Witness for C8: a concrete one-stage ingestion yields the string-keyed
`c8grp`, and the integer-keyed stage operations on it report not-found with
no mutation. -/
theorem C8_witness :
    (∀ p1 ∈ c8grp, ∀ p2 ∈ p1.2.stages, ∃ s, p2.1 = PKey.str s) ∧
    get_stage c8mst "g" "c" 1 = none ∧
    (∀ s, update_stage_status c8mst "g" "c" 1 s = (false, c8mst)) ∧
    (∀ e s, update_contact_status c8mst "g" "c" 1 e s = (false, c8mst)) :=
  ⟨C8_theorem.1 c8extract c8contactsFor c8templatesFor c8sched c8grp rfl,
   C8_theorem.2 c8mst "g" "c" 1 c8grp c8camp (by decide) (by decide)
     (C8_theorem.1 c8extract c8contactsFor c8templatesFor c8sched c8grp rfl
       ("c", c8camp) (by decide))⟩
